import Mathlib

/-! Steam Controller digital buttons (`Firmware/OpenSteamController/src/buttons.c`)

A shallow embedding of the button module: the sixteen pin definitions, the sixteen
module-level enable flags, `initButtons` (the loop that reads the EEPROM and
runs the `switch`), and the sixteen `get*State` query functions.

Conventions of the embedding.

* A C `int` flag is an `Int`; only `0`, `1` and comparisons with `0` occur.
* `Chip_GPIO_ReadPortBit(LPC_GPIO, port, pin)` is a parameter `Pins`: the level
  of every input line (`true` = electrically high).
* The heap is a byte map `Mem`; the address `malloc(sizeof(int))` hands back is
  the parameter `ptr` of `initButtons`.  The enable flags are module-level
  variables and are kept apart from the heap in `State`.
* `eepromRead` lives in `eeprom_access.c`, outside this file; it is modelled
  from its interface (see `eepromRead`).
* The sixteen `Chip_IOCON_PinMux` calls at the head of `initButtons` configure
  pull-ups and hysteresis; they touch neither the flags nor the heap and are
  not represented.
-/

namespace Buttons

/-! ## Pin definitions (lines 42-57) -/

/-- A GPIO line: `(port, pin)`, the two arguments a `GPIO_*` name expands to. -/
abbrev PinId := Nat × Nat

def GPIO_ANALOG_JOY_CLICK : PinId := (1, 0)
def GPIO_L_GRIP : PinId := (1, 25)
def GPIO_STEAM_BTN : PinId := (1, 19)
def GPIO_L_TRACKPAD : PinId := (1, 26)
def GPIO_L_TRIGGER : PinId := (1, 27)
def GPIO_L_BUMPER : PinId := (1, 4)
def GPIO_FRONT_L : PinId := (1, 20)
def GPIO_FRONT_R : PinId := (1, 2)
def GPIO_R_TRACKPAD : PinId := (1, 21)
def GPIO_Y_BTN : PinId := (1, 11)
def GPIO_R_TRIGGER : PinId := (1, 13)
def GPIO_R_BUMPER : PinId := (1, 14)
def GPIO_R_GRIP : PinId := (1, 3)
def GPIO_B_BTN : PinId := (1, 22)
def GPIO_X_BTN : PinId := (1, 9)
def GPIO_A_BTN : PinId := (0, 17)

/-- EEPROM offset of the options record, `#define OPTIONS_OFFSET (0x100)`. -/
def OPTIONS_OFFSET : Nat := 0x100

/-! ## Enable flags (lines 61-76) -/

/-- The sixteen module-level `int` flags, in declaration order. -/
structure Registry where
  analogJoyClickEnabled : Int
  leftGripEnabled : Int
  steamButtonEnabled : Int
  leftTrackpadEnabled : Int
  leftTriggerEnabled : Int
  leftBumperEnabled : Int
  frontLeftEnabled : Int
  frontRightEnabled : Int
  rightTrackpadEnabled : Int
  yButtonEnabled : Int
  rightTriggerEnabled : Int
  rightBumperEnabled : Int
  rightGripEnabled : Int
  bButtonEnabled : Int
  xButtonEnabled : Int
  aButtonEnabled : Int
deriving DecidableEq, Repr

/-- The values the static initialisers give the flags: every flag is `1`. -/
def startup : Registry :=
  { analogJoyClickEnabled := 1, leftGripEnabled := 1, steamButtonEnabled := 1,
    leftTrackpadEnabled := 1, leftTriggerEnabled := 1, leftBumperEnabled := 1,
    frontLeftEnabled := 1, frontRightEnabled := 1, rightTrackpadEnabled := 1,
    yButtonEnabled := 1, rightTriggerEnabled := 1, rightBumperEnabled := 1,
    rightGripEnabled := 1, bButtonEnabled := 1, xButtonEnabled := 1,
    aButtonEnabled := 1 }

/-! ## C operators used by the queries -/

/-- Levels of the input lines: `Chip_GPIO_ReadPortBit(LPC_GPIO, port, pin)`,
`true` for a high line. -/
abbrev Pins := Nat → Nat → Bool

/-- Reading one line, as an `int` operand: `1` for high, `0` for low. -/
def readPortBit (pins : Pins) (g : PinId) : Int :=
  if pins g.1 g.2 then 1 else 0

/-- The C operator `!x`. -/
def cNot (x : Int) : Int := if x = 0 then 1 else 0

/-- The C operator `a && b` (no operand here has an effect, so the short
circuit is not visible). -/
def cAnd (a b : Int) : Int := if a = 0 then 0 else if b = 0 then 0 else 1

/-! ## Query functions (lines 182-289)

Each query is written in state-passing style: it receives the flags and
returns its `int` result together with the flags it leaves behind. -/

def getSteamButtonState (pins : Pins) (r : Registry) : Int × Registry :=
  (cAnd r.steamButtonEnabled (cNot (readPortBit pins GPIO_STEAM_BTN)), r)

def getFrontLeftButtonState (pins : Pins) (r : Registry) : Int × Registry :=
  (cAnd r.frontLeftEnabled (cNot (readPortBit pins GPIO_FRONT_L)), r)

def getFrontRightButtonState (pins : Pins) (r : Registry) : Int × Registry :=
  (cAnd r.frontRightEnabled (cNot (readPortBit pins GPIO_FRONT_R)), r)

def getJoyClickState (pins : Pins) (r : Registry) : Int × Registry :=
  (cAnd r.analogJoyClickEnabled (cNot (readPortBit pins GPIO_ANALOG_JOY_CLICK)), r)

def getXButtonState (pins : Pins) (r : Registry) : Int × Registry :=
  (cAnd r.xButtonEnabled (cNot (readPortBit pins GPIO_X_BTN)), r)

def getYButtonState (pins : Pins) (r : Registry) : Int × Registry :=
  (cAnd r.yButtonEnabled (cNot (readPortBit pins GPIO_Y_BTN)), r)

def getBButtonState (pins : Pins) (r : Registry) : Int × Registry :=
  (cAnd r.bButtonEnabled (cNot (readPortBit pins GPIO_B_BTN)), r)

def getAButtonState (pins : Pins) (r : Registry) : Int × Registry :=
  (cAnd r.aButtonEnabled (cNot (readPortBit pins GPIO_A_BTN)), r)

def getRightGripState (pins : Pins) (r : Registry) : Int × Registry :=
  (cAnd r.rightGripEnabled (cNot (readPortBit pins GPIO_R_GRIP)), r)

def getLeftGripState (pins : Pins) (r : Registry) : Int × Registry :=
  (cAnd r.leftGripEnabled (cNot (readPortBit pins GPIO_L_GRIP)), r)

def getRightTrackpadClickState (pins : Pins) (r : Registry) : Int × Registry :=
  (cAnd r.rightTrackpadEnabled (cNot (readPortBit pins GPIO_R_TRACKPAD)), r)

def getLeftTrackpadClickState (pins : Pins) (r : Registry) : Int × Registry :=
  (cAnd r.leftTrackpadEnabled (cNot (readPortBit pins GPIO_L_TRACKPAD)), r)

def getRightTriggerState (pins : Pins) (r : Registry) : Int × Registry :=
  (cAnd r.rightTriggerEnabled (cNot (readPortBit pins GPIO_R_TRIGGER)), r)

def getLeftTriggerState (pins : Pins) (r : Registry) : Int × Registry :=
  (cAnd r.leftTriggerEnabled (cNot (readPortBit pins GPIO_L_TRIGGER)), r)

def getRightBumperState (pins : Pins) (r : Registry) : Int × Registry :=
  (cAnd r.rightBumperEnabled (cNot (readPortBit pins GPIO_R_BUMPER)), r)

def getLeftBumperState (pins : Pins) (r : Registry) : Int × Registry :=
  (cAnd r.leftBumperEnabled (cNot (readPortBit pins GPIO_L_BUMPER)), r)

/-! ## The sixteen buttons -/

/-- The sixteen buttons, in the order in which the pin names and the enable
flags are declared (which is also the order of the `case` labels). -/
inductive Button where
  | analogJoyClick | leftGrip | steamButton | leftTrackpad
  | leftTrigger | leftBumper | frontLeft | frontRight
  | rightTrackpad | yButton | rightTrigger | rightBumper
  | rightGrip | bButton | xButton | aButton
deriving DecidableEq, Repr, Fintype

namespace Button

/-- Position of the button in the declaration order, `0` to `15`. -/
def index : Button → Nat
  | analogJoyClick => 0 | leftGrip => 1 | steamButton => 2 | leftTrackpad => 3
  | leftTrigger => 4 | leftBumper => 5 | frontLeft => 6 | frontRight => 7
  | rightTrackpad => 8 | yButton => 9 | rightTrigger => 10 | rightBumper => 11
  | rightGrip => 12 | bButton => 13 | xButton => 14 | aButton => 15

/-- The button's own enable flag: the flag declared at the button's position
(lines 61-76). -/
def flag : Button → Registry → Int
  | analogJoyClick, r => r.analogJoyClickEnabled
  | leftGrip, r => r.leftGripEnabled
  | steamButton, r => r.steamButtonEnabled
  | leftTrackpad, r => r.leftTrackpadEnabled
  | leftTrigger, r => r.leftTriggerEnabled
  | leftBumper, r => r.leftBumperEnabled
  | frontLeft, r => r.frontLeftEnabled
  | frontRight, r => r.frontRightEnabled
  | rightTrackpad, r => r.rightTrackpadEnabled
  | yButton, r => r.yButtonEnabled
  | rightTrigger, r => r.rightTriggerEnabled
  | rightBumper, r => r.rightBumperEnabled
  | rightGrip, r => r.rightGripEnabled
  | bButton, r => r.bButtonEnabled
  | xButton, r => r.xButtonEnabled
  | aButton, r => r.aButtonEnabled

/-- The button's own input line: the pin declared at the button's position
(lines 42-57). -/
def gpio : Button → PinId
  | analogJoyClick => GPIO_ANALOG_JOY_CLICK
  | leftGrip => GPIO_L_GRIP
  | steamButton => GPIO_STEAM_BTN
  | leftTrackpad => GPIO_L_TRACKPAD
  | leftTrigger => GPIO_L_TRIGGER
  | leftBumper => GPIO_L_BUMPER
  | frontLeft => GPIO_FRONT_L
  | frontRight => GPIO_FRONT_R
  | rightTrackpad => GPIO_R_TRACKPAD
  | yButton => GPIO_Y_BTN
  | rightTrigger => GPIO_R_TRIGGER
  | rightBumper => GPIO_R_BUMPER
  | rightGrip => GPIO_R_GRIP
  | bButton => GPIO_B_BTN
  | xButton => GPIO_X_BTN
  | aButton => GPIO_A_BTN

/-- The query function the source names after the button. -/
def query : Button → Pins → Registry → Int × Registry
  | analogJoyClick => getJoyClickState
  | leftGrip => getLeftGripState
  | steamButton => getSteamButtonState
  | leftTrackpad => getLeftTrackpadClickState
  | leftTrigger => getLeftTriggerState
  | leftBumper => getLeftBumperState
  | frontLeft => getFrontLeftButtonState
  | frontRight => getFrontRightButtonState
  | rightTrackpad => getRightTrackpadClickState
  | yButton => getYButtonState
  | rightTrigger => getRightTriggerState
  | rightBumper => getRightBumperState
  | rightGrip => getRightGripState
  | bButton => getBButtonState
  | xButton => getXButtonState
  | aButton => getAButtonState

end Button

/-- The sixteen pin definitions in declaration order. -/
def pinMacros : List PinId :=
  [GPIO_ANALOG_JOY_CLICK, GPIO_L_GRIP, GPIO_STEAM_BTN, GPIO_L_TRACKPAD,
   GPIO_L_TRIGGER, GPIO_L_BUMPER, GPIO_FRONT_L, GPIO_FRONT_R,
   GPIO_R_TRACKPAD, GPIO_Y_BTN, GPIO_R_TRIGGER, GPIO_R_BUMPER,
   GPIO_R_GRIP, GPIO_B_BTN, GPIO_X_BTN, GPIO_A_BTN]

/-! ## `initButtons` (lines 120-177) -/

/-- Heap memory: the byte stored at each address. -/
abbrev Mem := Nat → Nat

/-- The configuration store as the module sees it: the outcome of the `n`-th
read issued (`n` counts from `0`), asked for `numBytes` bytes at `offset`:
the bytes delivered, or `none` when the read fails. -/
abbrev Store := Nat → Nat → Nat → Option (List Nat)

/-- What `initButtons` acts on: the flags, the heap, and the trace of the
store reads issued so far (`(offset, numBytes)`, oldest first). -/
structure State where
  reg : Registry
  mem : Mem
  reads : List (Nat × Nat)

/-- Store `bytes` at the addresses `ptr, ptr + 1, ...`. -/
def writeBytes (mem : Mem) (ptr : Nat) (bytes : List Nat) : Mem :=
  fun a => if ptr ≤ a ∧ a < ptr + bytes.length then bytes.getD (a - ptr) 0 else mem a

/-- Modelled from the spec: `eepromRead(offset, readData, numBytes)` of
`eeprom_access.c`, whose body is not in this file.  The store interface is
`read(offset, length) -> byte sequence of length length, or failure`: on
success the bytes delivered (at most `numBytes`) are copied to `readData`, on
failure the buffer is left as it was.  `initButtons` discards the return
value, so none is modelled.  Every call is appended to the trace. -/
def eepromRead (store : Store) (offset ptr numBytes : Nat) (st : State) : State :=
  match store st.reads.length offset numBytes with
  | some bytes =>
    { st with mem := writeBytes st.mem ptr (bytes.take numBytes),
              reads := st.reads ++ [(offset, numBytes)] }
  | none => { st with reads := st.reads ++ [(offset, numBytes)] }

/-- The operand of the `switch`, `(uint8_t)ptr`: the pointer itself converted
to an 8-bit unsigned integer, that is the low byte of the buffer address.
The buffer contents are not consulted. -/
def switchValue (ptr : Nat) (_mem : Mem) : Nat := ptr % 256

/-- The `switch` of lines 124-173 on the value `v`: one `case` per value
`0 .. 15`, each clearing one flag; no `default`. -/
def switchStep (v : Nat) (r : Registry) : Registry :=
  match v with
  | 0 => { r with analogJoyClickEnabled := 0 }
  | 1 => { r with leftGripEnabled := 0 }
  | 2 => { r with steamButtonEnabled := 0 }
  | 3 => { r with leftTrackpadEnabled := 0 }
  | 4 => { r with leftTriggerEnabled := 0 }
  | 5 => { r with leftBumperEnabled := 0 }
  | 6 => { r with frontLeftEnabled := 0 }
  | 7 => { r with frontRightEnabled := 0 }
  | 8 => { r with rightTrackpadEnabled := 0 }
  | 9 => { r with yButtonEnabled := 0 }
  | 10 => { r with rightTriggerEnabled := 0 }
  | 11 => { r with rightBumperEnabled := 0 }
  | 12 => { r with rightGripEnabled := 0 }
  | 13 => { r with bButtonEnabled := 0 }
  | 14 => { r with xButtonEnabled := 0 }
  | 15 => { r with aButtonEnabled := 0 }
  | _ => r

/-- One iteration of the `for` loop (lines 123-173): the read into the buffer
at `ptr`, then the `switch` on `(uint8_t)ptr`.  The loop counter `i` is not
used by the body. -/
def loopBody (store : Store) (ptr : Nat) (_i : Nat) (st : State) : State :=
  let st1 := eepromRead store OPTIONS_OFFSET ptr 8 st
  { st1 with reg := switchStep (switchValue ptr st1.mem) st1.reg }

/-- The configuration part of `initButtons` (lines 120-176): `ptr` is the
address returned by `malloc(sizeof(int))`; the loop runs for `i = 0 .. 15`;
`free(ptr)` changes nothing that is modelled. -/
def initButtons (store : Store) (ptr : Nat) (st : State) : State :=
  (List.range 16).foldl (fun s i => loopBody store ptr i s) st

/-- The state in which `initButtons` first runs: the flags as statically
initialised, no store read issued yet. -/
def startupState (mem : Mem) : State := { reg := startup, mem := mem, reads := [] }

/-! ## Concrete environments used in the evaluations below -/

/-- A store whose successive reads deliver the records listed in `firstBytes`
(one 8-byte record per read, the listed value in its first byte) and erased
records (`255`) after the list is exhausted. -/
def storeOfRecords (firstBytes : List Nat) : Store :=
  fun n _ _ => some (firstBytes.getD n 255 :: List.replicate 7 255)

/-- A byte-addressable store holding `bytes` from `OPTIONS_OFFSET` on and
erased bytes (`255`) everywhere else; a read never fails. -/
def storeOfBytes (bytes : List Nat) : Store :=
  fun _ offset numBytes =>
    some ((List.range numBytes).map (fun k => bytes.getD (offset + k - OPTIONS_OFFSET) 255))

/-- A heap holding `0` everywhere. -/
def zeroMem : Mem := fun _ => 0

/-- Every input line low (every button physically pressed). -/
def pinsAllLow : Pins := fun _ _ => false

/-- Every input line high (no button pressed). -/
def pinsAllHigh : Pins := fun _ _ => true

/-- Only the line of the Y button, `(1, 11)`, low; every other line high. -/
def pinsOnlyYLow : Pins := fun port pin => !(port == 1 && pin == 11)

/-! ## The loop with its counter, and the size of the buffer -/

/-- The `for` statement of line 121 with its counter made explicit:
`i` is tested against `16` before every iteration and incremented after it.
The first argument bounds the number of tests still allowed; the result is
the final value of `i` and the final state. -/
def forLoop (store : Store) (ptr : Nat) : Nat → Nat → State → Nat × State
  | 0, i, st => (i, st)
  | fuel + 1, i, st =>
    if i < 16 then forLoop store ptr fuel (i + 1) (loopBody store ptr i st) else (i, st)

/-- Size of an `int` in bytes on the target, a 32-bit ARM Cortex-M0
(LPC11Uxx): `sizeof(int)`. -/
def SIZEOF_INT : Nat := 4

/-- Number of bytes of the block `malloc(sizeof(int))` allocates (line 120). -/
def bufferSize : Nat := SIZEOF_INT

/-- Number of bytes every `eepromRead` of the loop asks for (third argument,
line 123). -/
def readLength : Nat := 8

/-! ## The console command `buttonsCmdFnc` (lines 313-354) -/

theorem switchStep_flag (v : Nat) (r : Registry) (b : Button) :
    b.flag (switchStep v r) = if b.index = v then 0 else b.flag r := by
  by_cases h : v < 16
  · interval_cases v <;> cases b <;> simp [switchStep, Button.flag, Button.index]
  · obtain ⟨k, rfl⟩ : ∃ k, v = k + 16 := ⟨v - 16, by omega⟩
    have hk : switchStep (k + 16) r = r := rfl
    rw [hk]
    cases b <;> simp [Button.index]

theorem switchStep_of_ge (v : Nat) (r : Registry) (h : 16 ≤ v) : switchStep v r = r := by
  obtain ⟨k, rfl⟩ : ∃ k, v = k + 16 := ⟨v - 16, by omega⟩
  rfl

theorem registry_ext_flag (r s : Registry) (h : ∀ b : Button, b.flag r = b.flag s) : r = s := by
  cases r
  cases s
  have h0 := h .analogJoyClick
  have h1 := h .leftGrip
  have h2 := h .steamButton
  have h3 := h .leftTrackpad
  have h4 := h .leftTrigger
  have h5 := h .leftBumper
  have h6 := h .frontLeft
  have h7 := h .frontRight
  have h8 := h .rightTrackpad
  have h9 := h .yButton
  have h10 := h .rightTrigger
  have h11 := h .rightBumper
  have h12 := h .rightGrip
  have h13 := h .bButton
  have h14 := h .xButton
  have h15 := h .aButton
  simp only [Button.flag] at h0 h1 h2 h3 h4 h5 h6 h7 h8 h9 h10 h11 h12 h13 h14 h15
  subst h0 h1 h2 h3 h4 h5 h6 h7 h8 h9 h10 h11 h12 h13 h14 h15
  rfl

theorem switchStep_idem (v : Nat) (r : Registry) :
    switchStep v (switchStep v r) = switchStep v r := by
  apply registry_ext_flag
  intro b
  rw [switchStep_flag, switchStep_flag]
  split <;> rfl

theorem eepromRead_reg (store : Store) (offset ptr numBytes : Nat) (st : State) :
    (eepromRead store offset ptr numBytes st).reg = st.reg := by
  unfold eepromRead
  split <;> rfl

theorem loopBody_reg (store : Store) (ptr i : Nat) (st : State) :
    (loopBody store ptr i st).reg = switchStep (ptr % 256) st.reg := by
  simp [loopBody, switchValue, eepromRead_reg]

theorem foldl_loopBody_reg (store : Store) (ptr : Nat) :
    ∀ (l : List Nat) (st : State), l ≠ [] →
      (l.foldl (fun s i => loopBody store ptr i s) st).reg = switchStep (ptr % 256) st.reg := by
  intro l
  induction l with
  | nil => intro st h; exact absurd rfl h
  | cons x xs ih =>
    intro st _
    rw [List.foldl_cons]
    by_cases hxs : xs = []
    · subst hxs
      simp [loopBody_reg]
    · rw [ih _ hxs, loopBody_reg, switchStep_idem]

/-- The flags `initButtons` leaves: the `switch` applied to the flags it found,
on the low byte of the buffer address. -/
theorem initButtons_reg (store : Store) (ptr : Nat) (st : State) :
    (initButtons store ptr st).reg = switchStep (ptr % 256) st.reg :=
  foldl_loopBody_reg store ptr (List.range 16) st (by decide)

theorem query_fst (b : Button) (pins : Pins) (r : Registry) :
    (b.query pins r).1 = cAnd (b.flag r) (cNot (readPortBit pins b.gpio)) := by
  cases b <;> rfl

theorem query_snd (b : Button) (pins : Pins) (r : Registry) :
    (b.query pins r).2 = r := by
  cases b <;> rfl

theorem query_of_enabled (b : Button) (pins : Pins) (r : Registry) (h : b.flag r ≠ 0) :
    (b.query pins r).1 = if pins b.gpio.1 b.gpio.2 then 0 else 1 := by
  rw [query_fst]
  cases hp : pins b.gpio.1 b.gpio.2 <;> simp [cAnd, cNot, readPortBit, hp, h]

theorem index_injective (b c : Button) (h : b.index = c.index) : b = c := by
  revert h
  cases b <;> cases c <;> simp [Button.index]

theorem eepromRead_reads (store : Store) (offset ptr numBytes : Nat) (st : State) :
    (eepromRead store offset ptr numBytes st).reads = st.reads ++ [(offset, numBytes)] := by
  unfold eepromRead
  split <;> rfl

theorem loopBody_reads (store : Store) (ptr i : Nat) (st : State) :
    (loopBody store ptr i st).reads = st.reads ++ [(OPTIONS_OFFSET, 8)] := by
  simp [loopBody, eepromRead_reads]

theorem foldl_loopBody_reads (store : Store) (ptr : Nat) :
    ∀ (l : List Nat) (st : State),
      (l.foldl (fun s i => loopBody store ptr i s) st).reads
        = st.reads ++ List.replicate l.length (OPTIONS_OFFSET, 8) := by
  intro l
  induction l with
  | nil => intro st; simp
  | cons x xs ih =>
    intro st
    rw [List.foldl_cons, ih, loopBody_reads, List.length_cons, List.replicate_succ,
      List.append_assoc]
    rfl

theorem initButtons_unfold (store : Store) (ptr : Nat) (st : State) :
    initButtons store ptr st =
      loopBody store ptr 15 (loopBody store ptr 14 (loopBody store ptr 13 (loopBody store ptr 12
      (loopBody store ptr 11 (loopBody store ptr 10 (loopBody store ptr 9 (loopBody store ptr 8
      (loopBody store ptr 7 (loopBody store ptr 6 (loopBody store ptr 5 (loopBody store ptr 4
      (loopBody store ptr 3 (loopBody store ptr 2 (loopBody store ptr 1 (loopBody store ptr 0
        st))))))))))))))) := rfl

theorem forLoop_at_bound (store : Store) (ptr fuel : Nat) (st : State) :
    forLoop store ptr fuel 16 st = (16, st) := by
  cases fuel <;> simp [forLoop]

/-- C1. Every one of the sixteen query functions returns `1` exactly when the
button's own enable flag is non-zero and the level read at the button's own
`(port, pin)` is low, and `0` otherwise; a button whose flag is `0` returns `0`
at every pin level, and a button whose flag is non-zero returns the negation
of its pin level. -/
theorem query_eq_flag_and_not_pin (b : Button) (r : Registry) (pins : Pins) :
    (b.query pins r).1
        = (if b.flag r ≠ 0 ∧ pins b.gpio.1 b.gpio.2 = false then 1 else 0)
      ∧ (b.flag r = 0 → (b.query pins r).1 = 0)
      ∧ (b.flag r ≠ 0 → (b.query pins r).1 = if pins b.gpio.1 b.gpio.2 then 0 else 1) := by
  refine ⟨?_, ?_, ?_⟩
  · rw [query_fst]
    by_cases hf : b.flag r = 0 <;> cases hp : pins b.gpio.1 b.gpio.2 <;>
      simp [cAnd, cNot, readPortBit, hp, hf]
  · intro hf
    rw [query_fst]
    simp [cAnd, hf]
  · intro hf
    exact query_of_enabled b pins r hf

/-- Instance of C1 for the Steam button: with the flag at `1` the query is `1`
for a low line and `0` for a high line, and with the flag at `0` it is `0` for
a low line. -/
theorem query_eq_flag_and_not_pin_witness :
    (Button.steamButton.query pinsAllLow startup).1 = 1
      ∧ (Button.steamButton.query pinsAllHigh startup).1 = 0
      ∧ (Button.steamButton.query pinsAllLow { startup with steamButtonEnabled := 0 }).1 = 0 :=
  ⟨((query_eq_flag_and_not_pin .steamButton startup pinsAllLow).2.2 (by decide)).trans (by decide),
   ((query_eq_flag_and_not_pin .steamButton startup pinsAllHigh).2.2 (by decide)).trans
     (by decide),
   (query_eq_flag_and_not_pin .steamButton { startup with steamButtonEnabled := 0 }
     pinsAllLow).2.1 (by decide)⟩

/-! ## Initialisation against the configuration records -/

/-- C2, the code at a failing input. Every read delivers a record whose first
byte is `2`, the index of the Steam button, and the buffer is allocated at
`0x10000810`. After `initButtons` from the startup state the buffer does hold
`2`, yet `steamButtonEnabled` is still `1` and `getSteamButtonState` returns
`1` for a low line: the `switch` ran on `0x10`, the low byte of the address. -/
theorem initButtons_ignores_record_two :
    Button.steamButton.index = 2
      ∧ (initButtons (storeOfRecords (List.replicate 16 2)) 0x10000810
            (startupState zeroMem)).mem 0x10000810 = 2
      ∧ switchValue 0x10000810
          (initButtons (storeOfRecords (List.replicate 16 2)) 0x10000810
            (startupState zeroMem)).mem = 16
      ∧ (initButtons (storeOfRecords (List.replicate 16 2)) 0x10000810
            (startupState zeroMem)).reg.steamButtonEnabled = 1
      ∧ (getSteamButtonState pinsAllLow
            (initButtons (storeOfRecords (List.replicate 16 2)) 0x10000810
              (startupState zeroMem)).reg).1 = 1 := by
  decide

/-- C3, the code at a failing input. Every read delivers an erased record
(first byte `255`, no button index), and the buffer is allocated at
`0x10000808`. After `initButtons` from the startup state
`rightTrackpadEnabled` is `0` and `getRightTrackpadClickState` returns `0` for
a low line, whose inverted level is `1`: the `switch` ran on `8`, the low byte
of the address. -/
theorem initButtons_disables_unlisted_button :
    Button.rightTrackpad.index = 8
      ∧ (initButtons (storeOfRecords []) 0x10000808 (startupState zeroMem)).mem 0x10000808
          = 255
      ∧ switchValue 0x10000808
          (initButtons (storeOfRecords []) 0x10000808 (startupState zeroMem)).mem = 8
      ∧ (initButtons (storeOfRecords []) 0x10000808
            (startupState zeroMem)).reg.rightTrackpadEnabled = 0
      ∧ (getRightTrackpadClickState pinsAllLow
            (initButtons (storeOfRecords []) 0x10000808 (startupState zeroMem)).reg).1 = 0
      ∧ cNot (readPortBit pinsAllLow GPIO_R_TRACKPAD) = 1 := by
  decide

/-- C4, the code at the scenario of the claim. The store delivers the records
`2, 9, 255, 255, ...` (as successive records, or as the bytes found at
`OPTIONS_OFFSET`), and the buffer is allocated at `0x10000810`. After
`initButtons` from the startup state all sixteen flags are `1`, among them
`steamButtonEnabled` and `yButtonEnabled`. -/
theorem initButtons_scenario_two_nine :
    (initButtons (storeOfRecords [2, 9]) 0x10000810 (startupState zeroMem)).reg = startup
      ∧ (initButtons (storeOfRecords [2, 9]) 0x10000810
            (startupState zeroMem)).reg.steamButtonEnabled = 1
      ∧ (initButtons (storeOfRecords [2, 9]) 0x10000810
            (startupState zeroMem)).reg.yButtonEnabled = 1
      ∧ (initButtons (storeOfBytes [2, 9]) 0x10000810 (startupState zeroMem)).reg = startup := by
  decide

/-- C5. The `switch` is a total function of the value `v` and the flags: for
every `v` and every button, the button's flag afterwards is `0` when the
button's index is `v` and is unchanged otherwise. Hence for `v` in `0 .. 15`
exactly the flag with index `v` is cleared (`0` clears
`analogJoyClickEnabled`, `1` `leftGripEnabled`, `2` `steamButtonEnabled`, `15`
`aButtonEnabled`), and for `v` from `16` on, `16` and `255` included, all
sixteen flags are unchanged. -/
theorem switchStep_decodes (v : Nat) (r : Registry) :
    (∀ b : Button, b.flag (switchStep v r) = if b.index = v then 0 else b.flag r)
      ∧ (v < 16 → ∃ b : Button, b.index = v ∧ b.flag (switchStep v r) = 0
            ∧ ∀ c : Button, c ≠ b → c.flag (switchStep v r) = c.flag r)
      ∧ (16 ≤ v → switchStep v r = r)
      ∧ (switchStep 0 r).analogJoyClickEnabled = 0
      ∧ (switchStep 1 r).leftGripEnabled = 0
      ∧ (switchStep 2 r).steamButtonEnabled = 0
      ∧ (switchStep 15 r).aButtonEnabled = 0
      ∧ switchStep 16 r = r
      ∧ switchStep 255 r = r := by
  refine ⟨fun b => switchStep_flag v r b, ?_, fun h => switchStep_of_ge v r h,
    rfl, rfl, rfl, rfl, rfl, rfl⟩
  intro hv
  have hex : ∃ b : Button, b.index = v := by
    interval_cases v
    · exact ⟨.analogJoyClick, rfl⟩
    · exact ⟨.leftGrip, rfl⟩
    · exact ⟨.steamButton, rfl⟩
    · exact ⟨.leftTrackpad, rfl⟩
    · exact ⟨.leftTrigger, rfl⟩
    · exact ⟨.leftBumper, rfl⟩
    · exact ⟨.frontLeft, rfl⟩
    · exact ⟨.frontRight, rfl⟩
    · exact ⟨.rightTrackpad, rfl⟩
    · exact ⟨.yButton, rfl⟩
    · exact ⟨.rightTrigger, rfl⟩
    · exact ⟨.rightBumper, rfl⟩
    · exact ⟨.rightGrip, rfl⟩
    · exact ⟨.bButton, rfl⟩
    · exact ⟨.xButton, rfl⟩
    · exact ⟨.aButton, rfl⟩
  obtain ⟨b, hb⟩ := hex
  refine ⟨b, hb, ?_, ?_⟩
  · rw [switchStep_flag, if_pos hb]
  · intro c hc
    rw [switchStep_flag, if_neg]
    intro hcv
    apply hc
    have hidx : c.index = b.index := hcv.trans hb.symm
    revert hidx
    cases c <;> cases b <;> simp [Button.index]

/-- Instance of C5 at `v = 9` on the startup flags: `yButtonEnabled` is
cleared and `xButtonEnabled` is not. -/
theorem switchStep_decodes_witness :
    (∃ b : Button, b.index = 9 ∧ b.flag (switchStep 9 startup) = 0
        ∧ ∀ c : Button, c ≠ b → c.flag (switchStep 9 startup) = c.flag startup)
      ∧ switchStep 200 startup = startup :=
  ⟨(switchStep_decodes 9 startup).2.1 (by decide),
   (switchStep_decodes 200 startup).2.2.1 (by decide)⟩

/-! ## Running `initButtons` again -/

/-- With the buffer at the same address in both runs, a second run of
`initButtons` leaves all sixteen flags as the first run left them. -/
theorem initButtons_same_buffer_twice (store : Store) (ptr : Nat) (st : State) :
    (initButtons store ptr (initButtons store ptr st)).reg = (initButtons store ptr st).reg := by
  rw [initButtons_reg, initButtons_reg, switchStep_idem]

/-- C6, the code at a failing input. The store is byte-addressable, erased, and
answers every read alike; each call of `initButtons` allocates its own buffer,
the first at `0x10000810`, the second at `0x10000808`. The first run from the
startup state leaves all sixteen flags `1`; the second run, on the state the
first left and with the store unchanged, clears `rightTrackpadEnabled`, so the
flags after two runs are not those after one run. -/
theorem initButtons_second_run_differs :
    (initButtons (storeOfBytes []) 0x10000810 (startupState zeroMem)).reg = startup
      ∧ (initButtons (storeOfBytes []) 0x10000808
          (initButtons (storeOfBytes []) 0x10000810
            (startupState zeroMem))).reg.rightTrackpadEnabled = 0
      ∧ (initButtons (storeOfBytes []) 0x10000808
          (initButtons (storeOfBytes []) 0x10000810 (startupState zeroMem))).reg
        ≠ (initButtons (storeOfBytes []) 0x10000810 (startupState zeroMem)).reg
      ∧ (∀ n m offset numBytes : Nat,
          storeOfBytes [] n offset numBytes = storeOfBytes [] m offset numBytes) := by
  refine ⟨by decide, by decide, by decide, fun _ _ _ _ => rfl⟩

/-- C7, refuted as stated. Prior state: `steamButtonEnabled = 0`, the other
flags `1`; every record of the store is erased; buffer at `0x10000810`. After
`initButtons` the flag `steamButtonEnabled` is `0`, whereas the run from the
all-enabled state with the same store leaves it `1`: the two registries
differ, and a flag the store does not name is `0` afterwards. -/
theorem initButtons_not_from_baseline :
    (initButtons (storeOfRecords []) 0x10000810
        { reg := { startup with steamButtonEnabled := 0 }, mem := zeroMem, reads := [] }).reg
      ≠ (initButtons (storeOfRecords []) 0x10000810 (startupState zeroMem)).reg
      ∧ (initButtons (storeOfRecords []) 0x10000810
          { reg := { startup with steamButtonEnabled := 0 }, mem := zeroMem,
            reads := [] }).reg.steamButtonEnabled = 0
      ∧ (initButtons (storeOfRecords []) 0x10000810
          (startupState zeroMem)).reg.steamButtonEnabled = 1 := by
  decide

/-- C7, amended. `initButtons` works on the flags as it finds them: for every
store, buffer address and prior state, each flag afterwards is `0` when the
run from the all-enabled state (same store, same buffer) clears it, and keeps
its prior value otherwise. -/
theorem initButtons_from_prior (store : Store) (ptr : Nat) (st : State) (b : Button) :
    b.flag (initButtons store ptr st).reg
      = if b.flag (initButtons store ptr (startupState st.mem)).reg = 0 then 0
        else b.flag st.reg := by
  rw [initButtons_reg, initButtons_reg, switchStep_flag, switchStep_flag]
  by_cases h : b.index = ptr % 256
  · simp [h]
  · have h1 : b.flag (startupState st.mem).reg ≠ 0 := by
      cases b <;> simp [startupState, startup, Button.flag]
    simp [h, h1]

/-! ## Unreadable store -/

/-- C9. The sixteen `(port, pin)` pairs `GPIO_ANALOG_JOY_CLICK .. GPIO_A_BTN`
are pairwise distinct: the list of the pins has no repetition, and the map
from buttons to their lines is one-to-one. -/
theorem pin_identities_distinct :
    pinMacros.Nodup ∧ pinMacros.length = 16 ∧ Function.Injective Button.gpio
      ∧ ∀ b : Button, pinMacros.get? b.index = some b.gpio := by
  refine ⟨by decide, by decide, ?_, by decide⟩
  intro a b h
  revert h
  cases a <;> cases b <;> decide

/-- C10. A query leaves all sixteen flags as they were, and its result depends
only on the button's own flag and the level of the button's own line: two
calls that see the same flag value and the same level return the same
result. -/
theorem query_frame (b : Button) (pins : Pins) (r : Registry) :
    (b.query pins r).2 = r
      ∧ (∀ c : Button, c.flag (b.query pins r).2 = c.flag r)
      ∧ ∀ (pins2 : Pins) (r2 : Registry), b.flag r2 = b.flag r →
          pins2 b.gpio.1 b.gpio.2 = pins b.gpio.1 b.gpio.2 →
          (b.query pins2 r2).1 = (b.query pins r).1 := by
  refine ⟨query_snd b pins r, fun c => by rw [query_snd], ?_⟩
  intro pins2 r2 hflag hpin
  rw [query_fst, query_fst, hflag]
  simp [readPortBit, hpin]

/-- Instance of C10 for the Y button: the startup flags with every line low,
against flags that differ in another button (`steamButtonEnabled = 0`) and
levels that differ on another line (only the Y line low), give the same
result. -/
theorem query_frame_witness :
    (Button.yButton.query pinsOnlyYLow { startup with steamButtonEnabled := 0 }).1
      = (Button.yButton.query pinsAllLow startup).1 :=
  (query_frame .yButton pinsAllLow startup).2.2 pinsOnlyYLow
    { startup with steamButtonEnabled := 0 } (by decide) (by decide)

/-! ## What the loop decodes, and how often it reads -/

/-- C11, the code at a failing input. Every read delivers a record whose first
byte is `2` and the buffer is allocated at `0x10000810`. After the read of the
first iteration the first byte of the buffer is `2`, but the operand of the
`switch` is `16`, the low byte of the buffer address, and the iteration leaves
`steamButtonEnabled` at `1`; the operand is the same for a buffer holding
anything else. -/
theorem switch_operand_is_not_record_byte :
    (eepromRead (storeOfRecords (List.replicate 16 2)) OPTIONS_OFFSET 0x10000810 8
        (startupState zeroMem)).mem 0x10000810 = 2
      ∧ switchValue 0x10000810
          (eepromRead (storeOfRecords (List.replicate 16 2)) OPTIONS_OFFSET 0x10000810 8
            (startupState zeroMem)).mem = 16
      ∧ (loopBody (storeOfRecords (List.replicate 16 2)) 0x10000810 0
          (startupState zeroMem)).reg.steamButtonEnabled = 1
      ∧ switchValue 0x10000810
          (eepromRead (storeOfRecords (List.replicate 16 9)) OPTIONS_OFFSET 0x10000810 8
            (startupState zeroMem)).mem = 16 := by
  decide

/-- C12. After one run of `initButtons` from the all-enabled startup state, for
every store and every buffer address, at most one of the sixteen enable flags
is `0`: the buttons whose flag is `0` number at most one, and two buttons
whose flags are `0` are the same button. -/
theorem initButtons_at_most_one_cleared (store : Store) (ptr : Nat) (mem : Mem) :
    (Finset.univ.filter
        (fun b : Button => b.flag (initButtons store ptr (startupState mem)).reg = 0)).card ≤ 1
      ∧ ∀ b c : Button, b.flag (initButtons store ptr (startupState mem)).reg = 0 →
          c.flag (initButtons store ptr (startupState mem)).reg = 0 → b = c := by
  have key : ∀ b : Button, b.flag (initButtons store ptr (startupState mem)).reg = 0 →
      b.index = ptr % 256 := by
    intro b hb
    rw [initButtons_reg, switchStep_flag] at hb
    by_contra hne
    rw [if_neg hne] at hb
    revert hb
    cases b <;> simp [startupState, startup, Button.flag]
  have pair : ∀ b c : Button, b.flag (initButtons store ptr (startupState mem)).reg = 0 →
      c.flag (initButtons store ptr (startupState mem)).reg = 0 → b = c := by
    intro b c hb hc
    exact index_injective b c ((key b hb).trans (key c hc).symm)
  refine ⟨?_, pair⟩
  rw [Finset.card_le_one]
  intro b hb c hc
  rw [Finset.mem_filter] at hb hc
  exact pair b c hb.2 hc.2

/-- Instance of C12: records naming buttons `2` and `9`, buffer at
`0x10000808`; the right trackpad flag is the only one cleared. -/
theorem initButtons_at_most_one_cleared_witness :
    Button.rightTrackpad.flag
        (initButtons (storeOfRecords [2, 9]) 0x10000808 (startupState zeroMem)).reg = 0
      ∧ ∀ c : Button,
          c.flag (initButtons (storeOfRecords [2, 9]) 0x10000808 (startupState zeroMem)).reg = 0
            → Button.rightTrackpad = c :=
  ⟨by decide, fun c hc =>
    (initButtons_at_most_one_cleared (storeOfRecords [2, 9]) 0x10000808 zeroMem).2
      .rightTrackpad c (by decide) hc⟩

/-- C13. The loop of `initButtons` ends after exactly sixteen iterations: with
any bound of at least `17` tests the counter loop stops with `i = 16` in the
state `initButtons` returns. It issues exactly sixteen store reads, each for
`8` bytes at `OPTIONS_OFFSET = 0x100`; the offset never changes. -/
theorem initButtons_sixteen_reads (store : Store) (ptr : Nat) (st : State) (k : Nat) :
    forLoop store ptr (17 + k) 0 st = (16, initButtons store ptr st)
      ∧ (initButtons store ptr st).reads
          = st.reads ++ List.replicate 16 (OPTIONS_OFFSET, 8)
      ∧ (initButtons store ptr st).reads.length = st.reads.length + 16
      ∧ OPTIONS_OFFSET = 0x100 := by
  have hreads : (initButtons store ptr st).reads
      = st.reads ++ List.replicate 16 (OPTIONS_OFFSET, 8) :=
    foldl_loopBody_reads store ptr (List.range 16) st
  refine ⟨?_, hreads, ?_, rfl⟩
  · rw [show 17 + k = k + 17 by omega, initButtons_unfold]
    simp [forLoop]
  · rw [hreads]
    simp

/-! ## The console command -/

/-- C15. `initButtons` never turns a flag that is `0` into a non-zero one: for
every store, buffer address and prior state, a button whose flag is `0`
before the call has flag `0` after it. -/
theorem initButtons_one_way (store : Store) (ptr : Nat) (st : State) (b : Button)
    (h : b.flag st.reg = 0) : b.flag (initButtons store ptr st).reg = 0 := by
  rw [initButtons_reg, switchStep_flag, h]
  split <;> rfl

/-- Instance of C15: the Steam button disabled beforehand, erased store. -/
theorem initButtons_one_way_witness :
    Button.steamButton.flag
      (initButtons (storeOfRecords []) 0x10000810
        { reg := { startup with steamButtonEnabled := 0 }, mem := zeroMem,
          reads := [] }).reg = 0 :=
  initButtons_one_way (storeOfRecords []) 0x10000810
    { reg := { startup with steamButtonEnabled := 0 }, mem := zeroMem, reads := [] }
    .steamButton (by decide)

/-- C16, the code at a failing input. The buffer is `sizeof(int) = 4` bytes at
`0x10000810`; every read asks for `8` bytes, which is more than the buffer
holds. With a store that delivers eight bytes, the bytes at `ptr + 4` and
`ptr + 7`, past the end of the buffer and `0` before the call, hold store data
(`255`) afterwards. -/
theorem eepromRead_writes_past_buffer :
    bufferSize = 4 ∧ readLength = 8 ∧ ¬ (readLength ≤ bufferSize)
      ∧ (initButtons (storeOfBytes [2, 9]) 0x10000810 (startupState zeroMem)).reads
          = List.replicate 16 (OPTIONS_OFFSET, readLength)
      ∧ zeroMem (0x10000810 + bufferSize) = 0
      ∧ (initButtons (storeOfBytes [2, 9]) 0x10000810 (startupState zeroMem)).mem
          (0x10000810 + bufferSize) = 255
      ∧ (initButtons (storeOfBytes [2, 9]) 0x10000810 (startupState zeroMem)).mem
          (0x10000810 + 7) = 255 := by
  decide

end Buttons
